import Mathlib

/-!
Shallow embedding of the iot-edge-demo coordination layer.

Source files embedded here:
- `src/shared/iot_edge_base/asset.py` — `AssetState`, `BaseAsset` (lifecycle
  state machine).  The driver hooks `_on_start` / `_on_stop` / `_on_fault`
  never touch `_state` or `_fault_code` in any driver of this repository
  (battery, boiler, inverter keep their own shadow fields), so transitions are
  modelled atomically.
- `src/shared/iot_edge_base/client.py` — `LocalMqttEdgeClient`: the pending
  map of `invoke_method`, the method-response branch of `_dispatch`, and the
  await-until-response-or-deadline behaviour of `invoke_method`.  Python
  floats are modelled as `ℚ`; wall-clock values are threaded as explicit
  parameters.  MQTT network I/O is not modelled; delivered messages are given
  to the dispatch function as an explicit event list.
- `src/modules/controller-module/src/registry.py` — `_extract_power_kw`,
  `AssetSnapshot`, `AssetRegistry` (the Python dict is modelled as an
  association list with first-match lookup and in-place replacement).
- `src/modules/controller-module/src/aggregator.py` — `GridAlert`
  (the human-readable `message` string is elided: no claim concerns it),
  `AggregatedTelemetry` (the wall-clock `timestamp` and the `assets`
  dictionary are elided for the same reason), `Aggregator.compute` and
  `Aggregator._check_alerts`.  Python's `round(x, 2)` is modelled exactly on
  `ℚ` as round-half-to-even at two decimal places.
- `src/modules/controller-module/src/dispatcher.py` — `CommandDispatcher.send`
  retry loop.  The transport is a function from the 1-based attempt number to
  the result of that attempt; the inter-attempt `asyncio.sleep` has no
  observable effect on the returned value and is not modelled.
-/

/-! ## Asset lifecycle state machine (`iot_edge_base/asset.py`) -/

/-- `AssetState` enumeration from `asset.py`. -/
inductive AssetState where
  | IDLE
  | STARTING
  | RUNNING
  | STOPPING
  | FAULT
deriving DecidableEq, Repr

/-- The observable fields of `BaseAsset`: identity plus the mutable
`_state` / `_fault_code` pair. -/
structure BaseAsset where
  asset_id : String
  state : AssetState
  fault_code : Option String
deriving DecidableEq, Repr

/-- `BaseAsset.__init__`: state IDLE, no fault code. -/
def BaseAsset.init (id : String) : BaseAsset :=
  { asset_id := id, state := AssetState.IDLE, fault_code := none }

/-- `BaseAsset.start`: no-op unless IDLE; otherwise STARTING, run the
on-start hook (state-machine neutral in every driver), then RUNNING. -/
def BaseAsset.start (a : BaseAsset) : BaseAsset :=
  if a.state ≠ AssetState.IDLE then a
  else { a with state := AssetState.RUNNING }

/-- `BaseAsset.stop`: no-op unless RUNNING or STARTING; otherwise STOPPING,
run the on-stop hook, then IDLE. -/
def BaseAsset.stop (a : BaseAsset) : BaseAsset :=
  if a.state = AssetState.RUNNING ∨ a.state = AssetState.STARTING
  then { a with state := AssetState.IDLE }
  else a

/-- `BaseAsset.fault`: from any state, record the code and enter FAULT. -/
def BaseAsset.fault (a : BaseAsset) (code : String) : BaseAsset :=
  { a with state := AssetState.FAULT, fault_code := some code }

/-- `BaseAsset.reset`: no-op unless FAULT; otherwise clear the fault code and
return to IDLE. -/
def BaseAsset.reset (a : BaseAsset) : BaseAsset :=
  if a.state = AssetState.FAULT
  then { a with state := AssetState.IDLE, fault_code := none }
  else a

/-- One externally invokable lifecycle operation of `BaseAsset`. -/
inductive AssetOp where
  | start
  | stop
  | fault (code : String)
  | reset
deriving DecidableEq, Repr

/-- Apply one lifecycle operation. -/
def BaseAsset.apply (a : BaseAsset) : AssetOp → BaseAsset
  | AssetOp.start => a.start
  | AssetOp.stop => a.stop
  | AssetOp.fault code => a.fault code
  | AssetOp.reset => a.reset

/-- Apply a sequence of lifecycle operations (transitions are serialized
per instance). -/
def BaseAsset.run (a : BaseAsset) (ops : List AssetOp) : BaseAsset :=
  ops.foldl BaseAsset.apply a

/-- The data-model invariant of `AssetHandle`: a fault code is present iff
the state is FAULT. -/
def faultCodeInv (a : BaseAsset) : Prop :=
  a.fault_code.isSome = true ↔ a.state = AssetState.FAULT

/-! ## Telemetry registry (`controller-module/src/registry.py`) -/

/-- The fields of a raw telemetry dict that `registry.py` reads.  A `none`
field models an absent dictionary key (so `Option.getD` is Python's
`dict.get` with default). -/
structure RawTelemetry where
  asset_id : Option String
  asset_type : Option String
  state : Option String
  power_kw : Option ℚ
  power_output_kw : Option ℚ
  timestamp : Option String
deriving DecidableEq, Repr

/-- A raw telemetry dict with no keys set. -/
def RawTelemetry.empty : RawTelemetry :=
  { asset_id := none, asset_type := none, state := none,
    power_kw := none, power_output_kw := none, timestamp := none }

/-- `AssetSnapshot` dataclass from `registry.py`. -/
structure AssetSnapshot where
  asset_id : String
  asset_type : String
  state : String
  power_kw : ℚ
  last_seen : String
  raw : RawTelemetry
deriving DecidableEq, Repr

/-- `_extract_power_kw`: normalise the power field name and sign across asset
types.  Solar reports `power_output_kw`, positive = generating, stored
unchanged; battery and boiler report `power_kw`, positive = consuming, stored
negated; unknown types fall back to `power_kw` then `power_output_kw`. -/
def extract_power_kw (data : RawTelemetry) : ℚ :=
  let t := data.asset_type.getD ""
  if t = "solar_inverter" then data.power_output_kw.getD 0
  else if t = "battery_storage" then -(data.power_kw.getD 0)
  else if t = "industrial_boiler" then -(data.power_kw.getD 0)
  else
    match data.power_kw with
    | some p => p
    | none => data.power_output_kw.getD 0

/-- First-match lookup in an association list (the read side of a Python
dict keyed by strings). -/
def assocLookup {β : Type} (k : String) : List (String × β) → Option β
  | [] => none
  | (k₁, v₁) :: rest => if k₁ = k then some v₁ else assocLookup k rest

/-- Insert-or-replace in an association list (the write side of a Python
dict keyed by strings). -/
def upsert {β : Type} (k : String) (v : β) : List (String × β) → List (String × β)
  | [] => [(k, v)]
  | (k₁, v₁) :: rest => if k₁ = k then (k, v) :: rest else (k₁, v₁) :: upsert k v rest

/-- `AssetRegistry`: the `_assets` dict keyed by asset id. -/
structure AssetRegistry where
  assets : List (String × AssetSnapshot)
deriving DecidableEq, Repr

/-- The snapshot built by `AssetRegistry.update` for a raw dict whose
asset id is truthy.  `now` is the wall-clock ISO timestamp used when the
dict carries no `timestamp` key. -/
def AssetRegistry.mkSnapshot (data : RawTelemetry) (aid now : String) : AssetSnapshot :=
  { asset_id := aid
    asset_type := data.asset_type.getD "unknown"
    state := data.state.getD "UNKNOWN"
    power_kw := extract_power_kw data
    last_seen := data.timestamp.getD now
    raw := data }

/-- `AssetRegistry.update`: drop the message when `asset_id` is absent or
falsy (the empty string), otherwise replace the snapshot keyed by that id. -/
def AssetRegistry.update (reg : AssetRegistry) (data : RawTelemetry) (now : String) : AssetRegistry :=
  match data.asset_id with
  | none => reg
  | some aid =>
    if aid = "" then reg
    else { assets := upsert aid (AssetRegistry.mkSnapshot data aid now) reg.assets }

/-- `AssetRegistry.get`. -/
def AssetRegistry.get (reg : AssetRegistry) (aid : String) : Option AssetSnapshot :=
  assocLookup aid reg.assets

/-- `AssetRegistry.get_all`: the list of stored snapshots. -/
def AssetRegistry.get_all (reg : AssetRegistry) : List AssetSnapshot :=
  reg.assets.map Prod.snd

/-- `AssetRegistry.count`. -/
def AssetRegistry.count (reg : AssetRegistry) : Nat :=
  reg.assets.length

/-! ## Aggregator (`controller-module/src/aggregator.py`) -/

/-- `GridAlert` dataclass (the `message` string is elided). -/
structure GridAlert where
  severity : String
  code : String
  asset_id : Option String
deriving DecidableEq, Repr

/-- `AggregatedTelemetry` dataclass (wall-clock `timestamp` and the `assets`
dictionary are elided). -/
structure AggregatedTelemetry where
  device_id : String
  total_generation_kw : ℚ
  total_consumption_kw : ℚ
  grid_balance_kw : ℚ
  asset_count : Nat
  alerts : List GridAlert
deriving DecidableEq, Repr

/-- Python's `round` to an integer: round half to even (banker's rounding),
modelled exactly on `ℚ`. -/
def pyRound (q : ℚ) : ℤ :=
  let f : ℤ := ⌊q⌋
  let r : ℚ := q - (f : ℚ)
  if r < 1 / 2 then f
  else if 1 / 2 < r then f + 1
  else if f % 2 = 0 then f else f + 1

/-- Python's `round(q, 2)`. -/
def round2 (q : ℚ) : ℚ :=
  ((pyRound (q * 100) : ℤ) : ℚ) / 100

/-- `sum(s.power_kw for s in snapshots if s.power_kw > 0)`. -/
def gridGeneration (snapshots : List AssetSnapshot) : ℚ :=
  ((snapshots.filter (fun s => decide (0 < s.power_kw))).map (fun s => s.power_kw)).sum

/-- `sum(abs(s.power_kw) for s in snapshots if s.power_kw < 0)`. -/
def gridConsumption (snapshots : List AssetSnapshot) : ℚ :=
  ((snapshots.filter (fun s => decide (s.power_kw < 0))).map (fun s => |s.power_kw|)).sum

/-- `Aggregator._check_alerts`: one critical ASSET_FAULT alert per faulted
snapshot, then a GRID_SURPLUS warning when `balance > threshold`, then a
GRID_DEFICIT warning when `balance < -threshold` (both comparisons strict,
applied to the unrounded balance). -/
def Aggregator.check_alerts (surplus_threshold_kw : ℚ) (snapshots : List AssetSnapshot)
    (balance : ℚ) : List GridAlert :=
  let faultAlerts :=
    (snapshots.filter (fun s => decide (s.state = "FAULT"))).map (fun s =>
      { severity := "critical", code := "ASSET_FAULT", asset_id := some s.asset_id })
  let withSurplus :=
    if surplus_threshold_kw < balance
    then faultAlerts ++ [{ severity := "warning", code := "GRID_SURPLUS", asset_id := none }]
    else faultAlerts
  if balance < -surplus_threshold_kw
  then withSurplus ++ [{ severity := "warning", code := "GRID_DEFICIT", asset_id := none }]
  else withSurplus

/-- `Aggregator.compute`: sums over the registry snapshots, balance =
generation − consumption, alerts from the unrounded balance, reported sums
rounded to two decimal places. -/
def Aggregator.compute (device_id : String) (surplus_threshold_kw : ℚ)
    (registry : AssetRegistry) : AggregatedTelemetry :=
  let snapshots := registry.get_all
  let generation := gridGeneration snapshots
  let consumption := gridConsumption snapshots
  let balance := generation - consumption
  { device_id := device_id
    total_generation_kw := round2 generation
    total_consumption_kw := round2 consumption
    grid_balance_kw := round2 balance
    asset_count := snapshots.length
    alerts := Aggregator.check_alerts surplus_threshold_kw snapshots balance }

/-! ## Local MQTT transport (`iot_edge_base/client.py`) -/

/-- The lifecycle of one `asyncio.Future` created by `invoke_method`:
not yet done, resolved with the response payload, or cancelled by
`asyncio.wait_for` on timeout. -/
inductive FutureSt (α : Type) where
  | pending
  | resolved (payload : α)
  | cancelled
deriving DecidableEq, Repr

/-- The response-correlation state of a `LocalMqttEdgeClient`:
`pendingIds` are the keys of the `_pending` dict; `futures` records every
future ever created by `invoke_method`, keyed by request id (callers keep a
reference to their future even after it leaves the `_pending` dict). -/
structure ClientState (α : Type) where
  pendingIds : List String
  futures : List (String × FutureSt α)
deriving DecidableEq, Repr

/-- Remove the (single) occurrence of a key: `dict.pop` on the key list. -/
def eraseId (k : String) : List String → List String
  | [] => []
  | x :: rest => if x = k then rest else x :: eraseId k rest

/-- Number of occurrences of a key in the pending-id list. -/
def occCount (k : String) : List String → Nat
  | [] => 0
  | x :: rest => (if x = k then 1 else 0) + occCount k rest

/-- `future.set_result(...)` guarded by `not future.done()`: resolve the
future stored under `k` only if it is still pending. -/
def setResolved {α : Type} (k : String) (p : α) :
    List (String × FutureSt α) → List (String × FutureSt α)
  | [] => []
  | (k₁, f) :: rest =>
    if k₁ = k then
      (k₁, match f with | FutureSt.pending => FutureSt.resolved p | other => other) :: rest
    else (k₁, f) :: setResolved k p rest

/-- Cancellation performed by `asyncio.wait_for` on timeout: the future
stored under `k` becomes cancelled if still pending. -/
def setCancelled {α : Type} (k : String) :
    List (String × FutureSt α) → List (String × FutureSt α)
  | [] => []
  | (k₁, f) :: rest =>
    if k₁ = k then
      (k₁, match f with | FutureSt.pending => FutureSt.cancelled | other => other) :: rest
    else (k₁, f) :: setCancelled k rest

/-- The JSON object published by `send_method_response`:
`{"status": ..., "payload": ...}`. -/
structure RespMessage (α : Type) where
  status : Int
  payload : α
deriving DecidableEq, Repr

/-- The future created for a given request id, if any. -/
def futureOf {α : Type} (rid : String) (st : ClientState α) : Option (FutureSt α) :=
  assocLookup rid st.futures

/-- The registration step of `invoke_method`: create a fresh future and store
it in `_pending` under the fresh request id. -/
def registerCall {α : Type} (rid : String) (st : ClientState α) : ClientState α :=
  { pendingIds := rid :: st.pendingIds
    futures := (rid, FutureSt.pending) :: st.futures }

/-- The method-response branch of `_dispatch`: pop the pending entry for the
request id extracted from the topic; if a future was found and is not done,
resolve it with the message's `payload` field only (the `status` field is
discarded).  An unknown id is ignored silently; this function never raises. -/
def dispatchResponse {α : Type} (rid : String) (msg : RespMessage α)
    (st : ClientState α) : ClientState α :=
  if rid ∈ st.pendingIds then
    { pendingIds := eraseId rid st.pendingIds
      futures := setResolved rid msg.payload st.futures }
  else st

/-- The timeout path of `invoke_method`: `asyncio.wait_for` cancels the
future, then the pending entry is popped and a Timeout error is raised. -/
def timeoutCall {α : Type} (rid : String) (st : ClientState α) : ClientState α :=
  { pendingIds := eraseId rid st.pendingIds
    futures := setCancelled rid st.futures }

/-- Outcome of an `invoke_method` call: the resolved payload, or the
RuntimeError raised after the deadline (a Timeout per the error taxonomy). -/
inductive CallOutcome (α : Type) where
  | ok (payload : α)
  | timedOut (target_module_id method_name : String)
deriving DecidableEq, Repr

/-- The suspension of `invoke_method` awaiting its future: each delivered
method-response event (request id from the topic, decoded message) is
dispatched in order; the call completes as soon as its own future is
resolved; if the event list is exhausted the deadline has elapsed and the
timeout path runs. -/
def awaitCall {α : Type} (rid target_module_id method_name : String) :
    List (String × RespMessage α) → ClientState α → CallOutcome α × ClientState α
  | [], st => (CallOutcome.timedOut target_module_id method_name, timeoutCall rid st)
  | (r, m) :: rest, st =>
    let st₁ := dispatchResponse r m st
    match futureOf rid st₁ with
    | some (FutureSt.resolved p) => (CallOutcome.ok p, st₁)
    | _ => awaitCall rid target_module_id method_name rest st₁

/-- `LocalMqttEdgeClient.invoke_method`: register the fresh request id, then
await response-or-deadline over the delivered events.  (Publishing the
invocation to the broker has no effect on the correlation state.) -/
def invoke_method {α : Type} (rid target_module_id method_name : String)
    (events : List (String × RespMessage α)) (st : ClientState α) :
    CallOutcome α × ClientState α :=
  awaitCall rid target_module_id method_name events (registerCall rid st)

/-! ## Command dispatcher (`controller-module/src/dispatcher.py`) -/

/-- True when an attempt raised (any exception is retried). -/
def invokeFailed {ε α : Type} : Except ε α → Bool
  | Except.ok _ => false
  | Except.error _ => true

/-- The RuntimeError raised by `CommandDispatcher.send` when all retries are
exhausted (`CommandFailed` in the spec taxonomy): it reports the module, the
method, the total attempt count, and wraps the last underlying failure. -/
structure CommandFailedErr (ε : Type) where
  module_id : String
  method_name : String
  attempts : Nat
  last : ε
deriving DecidableEq, Repr

/-- The `for attempt in range(1, max_retries + 2)` loop body of `send`:
`attempt` is the 1-based attempt number, `remaining` the number of further
attempts allowed after this one.  Returns the first success or the error of
the last attempt, paired with the number of transport invocations made. -/
def sendLoop {ε α : Type} (invoke : Nat → Except ε α) (attempt : Nat) :
    Nat → Except ε α × Nat
  | 0 =>
    match invoke attempt with
    | Except.ok v => (Except.ok v, 1)
    | Except.error e => (Except.error e, 1)
  | remaining + 1 =>
    match invoke attempt with
    | Except.ok v => (Except.ok v, 1)
    | Except.error _ =>
      let next := sendLoop invoke (attempt + 1) remaining
      (next.1, next.2 + 1)

/-- `CommandDispatcher.send`: up to `max_retries + 1` attempts starting at
attempt 1; a success returns immediately; otherwise the final RuntimeError
wraps the last failure and reports `max_retries + 1` attempts.  The second
component counts transport invocations. -/
def CommandDispatcher.send {ε α : Type} (invoke : Nat → Except ε α)
    (module_id method_name : String) (max_retries : Nat) :
    Except (CommandFailedErr ε) α × Nat :=
  match sendLoop invoke 1 max_retries with
  | (Except.ok v, n) => (Except.ok v, n)
  | (Except.error e, n) =>
    (Except.error
      { module_id := module_id, method_name := method_name,
        attempts := max_retries + 1, last := e }, n)

/-! ## Concrete snapshots used in the aggregator examples -/

/-- A generating snapshot contributing +100 kW. -/
def snapGen100 : AssetSnapshot :=
  { asset_id := "solar-01", asset_type := "solar_inverter", state := "RUNNING",
    power_kw := 100, last_seen := "2024-01-01T12:00:00Z", raw := RawTelemetry.empty }

/-- A consuming snapshot contributing −30 kW. -/
def snapCons30 : AssetSnapshot :=
  { asset_id := "battery-01", asset_type := "battery_storage", state := "CHARGING",
    power_kw := -30, last_seen := "2024-01-01T12:00:00Z", raw := RawTelemetry.empty }

/-- A consuming snapshot contributing −40 kW. -/
def snapCons40 : AssetSnapshot :=
  { asset_id := "boiler-01", asset_type := "industrial_boiler", state := "RUNNING",
    power_kw := -40, last_seen := "2024-01-01T12:00:00Z", raw := RawTelemetry.empty }

/-- A generating snapshot whose power (1/1000 kW) is below the two-decimal
rounding resolution of the reported sums. -/
def snapTiny : AssetSnapshot :=
  { asset_id := "solar-02", asset_type := "solar_inverter", state := "RUNNING",
    power_kw := 1 / 1000, last_seen := "2024-01-01T12:00:00Z", raw := RawTelemetry.empty }

/-- A registry holding the {+100, −30, −40} example entries. -/
def exampleRegistry : AssetRegistry :=
  { assets := [("solar-01", snapGen100), ("battery-01", snapCons30), ("boiler-01", snapCons40)] }

/-- The battery telemetry payload used in the repository's registry tests. -/
def batteryRaw : RawTelemetry :=
  { asset_id := some "battery-01", asset_type := some "battery_storage",
    state := some "CHARGING", power_kw := some 30, power_output_kw := none,
    timestamp := some "2024-01-01T12:00:00Z" }

/-- Bool test for a GRID_SURPLUS warning alert. -/
def isSurplusAlert (a : GridAlert) : Bool :=
  decide (a.severity = "warning" ∧ a.code = "GRID_SURPLUS")

/-- Bool test for a GRID_DEFICIT warning alert. -/
def isDeficitAlert (a : GridAlert) : Bool :=
  decide (a.severity = "warning" ∧ a.code = "GRID_DEFICIT")

/-! ## Helper lemmas -/

theorem apply_faultCodeInv (a : BaseAsset) (op : AssetOp) (h : faultCodeInv a) :
    faultCodeInv (a.apply op) := by
  cases op with
  | start =>
    simp only [BaseAsset.apply, BaseAsset.start]
    split
    · exact h
    · rename_i hI
      push_neg at hI
      simp_all [faultCodeInv]
  | stop =>
    simp only [BaseAsset.apply, BaseAsset.stop]
    split
    · rename_i hs
      rcases hs with hs | hs <;> simp_all [faultCodeInv]
    · exact h
  | fault code =>
    simp [faultCodeInv, BaseAsset.apply, BaseAsset.fault]
  | reset =>
    simp only [BaseAsset.apply, BaseAsset.reset]
    split
    · simp [faultCodeInv]
    · exact h

theorem run_faultCodeInv (a : BaseAsset) (ops : List AssetOp) (h : faultCodeInv a) :
    faultCodeInv (a.run ops) := by
  induction ops generalizing a with
  | nil => exact h
  | cons op rest ih => exact ih (a.apply op) (apply_faultCodeInv a op h)

theorem assocLookup_upsert_self {β : Type} (k : String) (v : β) (l : List (String × β)) :
    assocLookup k (upsert k v l) = some v := by
  induction l with
  | nil => simp [assocLookup, upsert]
  | cons kv rest ih =>
    obtain ⟨k₁, v₁⟩ := kv
    by_cases hk : k₁ = k
    · simp [assocLookup, upsert, hk]
    · simp [assocLookup, upsert, hk, ih]

theorem upsert_upsert_self {β : Type} (k : String) (v₁ v₂ : β) (l : List (String × β)) :
    upsert k v₂ (upsert k v₁ l) = upsert k v₂ l := by
  induction l with
  | nil => simp [upsert]
  | cons kv rest ih =>
    obtain ⟨k₀, v₀⟩ := kv
    by_cases hk : k₀ = k
    · simp [upsert, hk]
    · simp [upsert, hk, ih]

theorem gridGeneration_eq_ite_sum (l : List AssetSnapshot) :
    gridGeneration l = (l.map (fun s => if 0 < s.power_kw then s.power_kw else 0)).sum := by
  induction l with
  | nil => rfl
  | cons s rest ih =>
    simp only [gridGeneration, List.filter_cons] at ih ⊢
    by_cases h : 0 < s.power_kw
    · simp [h, ih]
    · simp [h, ih]

theorem gridConsumption_eq_ite_sum (l : List AssetSnapshot) :
    gridConsumption l = (l.map (fun s => if s.power_kw < 0 then -s.power_kw else 0)).sum := by
  induction l with
  | nil => rfl
  | cons s rest ih =>
    simp only [gridConsumption, List.filter_cons] at ih ⊢
    by_cases h : s.power_kw < 0
    · simp [h, ih, abs_of_neg h]
    · simp [h, ih]

theorem countP_fault_alerts_surplus (snaps : List AssetSnapshot) :
    ((snaps.filter (fun s => decide (s.state = "FAULT"))).map (fun s =>
      ({ severity := "critical", code := "ASSET_FAULT", asset_id := some s.asset_id } : GridAlert))).countP
        isSurplusAlert = 0 := by
  rw [List.countP_eq_zero]
  intro a ha
  rcases List.mem_map.mp ha with ⟨s, _, rfl⟩
  simp [isSurplusAlert]

theorem countP_fault_alerts_deficit (snaps : List AssetSnapshot) :
    ((snaps.filter (fun s => decide (s.state = "FAULT"))).map (fun s =>
      ({ severity := "critical", code := "ASSET_FAULT", asset_id := some s.asset_id } : GridAlert))).countP
        isDeficitAlert = 0 := by
  rw [List.countP_eq_zero]
  intro a ha
  rcases List.mem_map.mp ha with ⟨s, _, rfl⟩
  simp [isDeficitAlert]

theorem check_alerts_countP_surplus (θ balance : ℚ) (snaps : List AssetSnapshot) :
    (Aggregator.check_alerts θ snaps balance).countP isSurplusAlert
      = if θ < balance then 1 else 0 := by
  unfold Aggregator.check_alerts
  by_cases h₁ : θ < balance <;> by_cases h₂ : balance < -θ <;>
    simp [h₁, h₂, List.countP_append, List.countP_cons, countP_fault_alerts_surplus,
      isSurplusAlert]

theorem check_alerts_countP_deficit (θ balance : ℚ) (snaps : List AssetSnapshot) :
    (Aggregator.check_alerts θ snaps balance).countP isDeficitAlert
      = if balance < -θ then 1 else 0 := by
  unfold Aggregator.check_alerts
  by_cases h₁ : θ < balance <;> by_cases h₂ : balance < -θ <;>
    simp [h₁, h₂, List.countP_append, List.countP_cons, countP_fault_alerts_deficit,
      isDeficitAlert]

theorem occCount_eq_zero_of_not_mem (k : String) (ids : List String) (h : k ∉ ids) :
    occCount k ids = 0 := by
  induction ids with
  | nil => rfl
  | cons x rest ih =>
    simp only [List.mem_cons, not_or] at h
    simp [occCount, Ne.symm h.1, ih h.2]

theorem not_mem_of_occCount_zero (k : String) (ids : List String) (h : occCount k ids = 0) :
    k ∉ ids := by
  induction ids with
  | nil => simp
  | cons x rest ih =>
    by_cases hx : x = k
    · simp [occCount, hx] at h
    · simp only [occCount, if_neg hx, Nat.zero_add] at h
      intro hmem
      rcases List.mem_cons.mp hmem with heq | hmem₂
      · exact hx heq.symm
      · exact ih h hmem₂

theorem mem_of_occCount_pos (k : String) (ids : List String) (h : 0 < occCount k ids) :
    k ∈ ids := by
  by_contra hmem
  rw [occCount_eq_zero_of_not_mem k ids hmem] at h
  exact Nat.lt_irrefl 0 h

theorem occCount_eraseId_of_ne (k r : String) (ids : List String) (h : r ≠ k) :
    occCount k (eraseId r ids) = occCount k ids := by
  induction ids with
  | nil => rfl
  | cons x rest ih =>
    by_cases hx : x = r
    · subst hx
      simp [eraseId, occCount, h]
    · simp [eraseId, hx, occCount, ih]

theorem occCount_eraseId_self (k : String) (ids : List String) :
    occCount k (eraseId k ids) = occCount k ids - 1 := by
  induction ids with
  | nil => rfl
  | cons x rest ih =>
    by_cases hx : x = k
    · simp [eraseId, hx, occCount]
    · simp only [eraseId, if_neg hx, occCount, ih]
      omega

theorem assocLookup_setResolved_ne {α : Type} (k r : String) (p : α)
    (futs : List (String × FutureSt α)) (h : r ≠ k) :
    assocLookup k (setResolved r p futs) = assocLookup k futs := by
  induction futs with
  | nil => rfl
  | cons kv rest ih =>
    obtain ⟨k₁, f⟩ := kv
    by_cases hk : k₁ = r
    · subst hk
      simp [setResolved, assocLookup, h]
    · by_cases hkk : k₁ = k
      · subst hkk
        simp [setResolved, assocLookup, hk]
      · simp [setResolved, assocLookup, hk, hkk, ih]

theorem dispatchResponse_not_pending {α : Type} (rid : String) (msg : RespMessage α)
    (st : ClientState α) (h : rid ∉ st.pendingIds) :
    dispatchResponse rid msg st = st := by
  simp [dispatchResponse, h]

theorem dispatchResponse_preserves {α : Type} (rid r : String) (msg : RespMessage α)
    (st : ClientState α) (h : r ≠ rid) :
    futureOf rid (dispatchResponse r msg st) = futureOf rid st
    ∧ occCount rid (dispatchResponse r msg st).pendingIds = occCount rid st.pendingIds := by
  unfold dispatchResponse
  split
  · constructor
    · simpa [futureOf] using assocLookup_setResolved_ne rid r msg.payload st.futures h
    · simpa using occCount_eraseId_of_ne rid r st.pendingIds h
  · exact ⟨rfl, rfl⟩

theorem dispatchResponse_register_resolves {α : Type} (rid : String) (msg : RespMessage α)
    (st : ClientState α) :
    futureOf rid (dispatchResponse rid msg (registerCall rid st))
      = some (FutureSt.resolved msg.payload)
    ∧ (dispatchResponse rid msg (registerCall rid st)).pendingIds = st.pendingIds := by
  unfold dispatchResponse
  rw [if_pos (by simp [registerCall] : rid ∈ (registerCall rid st).pendingIds)]
  constructor
  · simp [registerCall, setResolved, futureOf, assocLookup]
  · simp [registerCall, eraseId]

theorem awaitCall_timeout {α : Type} (rid tmod meth : String)
    (events : List (String × RespMessage α)) (st : ClientState α)
    (hmiss : ∀ e ∈ events, e.1 ≠ rid)
    (hfut : futureOf rid st = some FutureSt.pending)
    (hocc : occCount rid st.pendingIds = 1) :
    (awaitCall rid tmod meth events st).1 = CallOutcome.timedOut tmod meth
    ∧ rid ∉ (awaitCall rid tmod meth events st).2.pendingIds := by
  induction events generalizing st with
  | nil =>
    refine ⟨rfl, ?_⟩
    apply not_mem_of_occCount_zero
    simp [awaitCall, timeoutCall, occCount_eraseId_self, hocc]
  | cons e rest ih =>
    obtain ⟨r, m⟩ := e
    have hr : r ≠ rid := hmiss (r, m) (List.mem_cons_self _ _)
    obtain ⟨hf₁, ho₁⟩ := dispatchResponse_preserves rid r m st hr
    rw [hfut] at hf₁
    have step : awaitCall rid tmod meth ((r, m) :: rest) st
        = awaitCall rid tmod meth rest (dispatchResponse r m st) := by
      simp only [awaitCall]
      rw [hf₁]
    rw [step]
    exact ih (dispatchResponse r m st) (fun e he => hmiss e (List.mem_cons_of_mem _ he)) hf₁
      (by rw [ho₁, hocc])

theorem sendLoop_ok {ε α : Type} (invoke : Nat → Except ε α) (p : α) :
    ∀ (j a r : Nat), j ≤ r →
      (∀ i, a ≤ i → i < a + j → invokeFailed (invoke i) = true) →
      invoke (a + j) = Except.ok p →
      sendLoop invoke a r = (Except.ok p, j + 1) := by
  intro j
  induction j with
  | zero =>
    intro a r _ _ hsucc
    rw [Nat.add_zero] at hsucc
    cases r <;> simp [sendLoop, hsucc]
  | succ j ih =>
    intro a r hle hfail hsucc
    obtain ⟨r₁, rfl⟩ : ∃ r₁, r = r₁ + 1 := ⟨r - 1, by omega⟩
    have hfa : invokeFailed (invoke a) = true := hfail a (Nat.le_refl a) (by omega)
    obtain ⟨e, he⟩ : ∃ e, invoke a = Except.error e := by
      cases hinv : invoke a with
      | ok v => rw [hinv] at hfa; simp [invokeFailed] at hfa
      | error e => exact ⟨e, rfl⟩
    have ihr := ih (a + 1) r₁ (by omega)
      (fun i h₁ h₂ => hfail i (by omega) (by omega))
      (by rw [show a + 1 + j = a + (j + 1) by omega]; exact hsucc)
    simp [sendLoop, he, ihr]

theorem sendLoop_fail {ε α : Type} (invoke : Nat → Except ε α)
    (hfail : ∀ i, invokeFailed (invoke i) = true) :
    ∀ (r a : Nat), ∃ e, invoke (a + r) = Except.error e
      ∧ sendLoop invoke a r = (Except.error e, r + 1) := by
  intro r
  induction r with
  | zero =>
    intro a
    obtain ⟨e, he⟩ : ∃ e, invoke a = Except.error e := by
      cases hinv : invoke a with
      | ok v => have hb := hfail a; rw [hinv] at hb; simp [invokeFailed] at hb
      | error e => exact ⟨e, rfl⟩
    exact ⟨e, by simpa using he, by simp [sendLoop, he]⟩
  | succ r ih =>
    intro a
    obtain ⟨e₀, he₀⟩ : ∃ e, invoke a = Except.error e := by
      cases hinv : invoke a with
      | ok v => have hb := hfail a; rw [hinv] at hb; simp [invokeFailed] at hb
      | error e => exact ⟨e, rfl⟩
    obtain ⟨e, he, hsl⟩ := ih (a + 1)
    refine ⟨e, ?_, ?_⟩
    · rw [show a + (r + 1) = a + 1 + r by omega]
      exact he
    · simp [sendLoop, he₀, hsl]

/-! ## Claim theorems -/

/-- C8: starting from the initial state (IDLE, no fault code), every sequence
of start/stop/fault/reset operations preserves the invariant that a fault
code is present iff the state is FAULT; moreover `fault code` records the
code and enters FAULT, and `reset` from FAULT clears the code and returns to
IDLE. -/
theorem C8_fault_code_present_iff_fault (id code : String) (ops : List AssetOp) :
    (((BaseAsset.init id).run ops).fault_code.isSome = true
      ↔ ((BaseAsset.init id).run ops).state = AssetState.FAULT)
    ∧ (((BaseAsset.init id).run ops).fault code).state = AssetState.FAULT
    ∧ (((BaseAsset.init id).run ops).fault code).fault_code = some code
    ∧ ((((BaseAsset.init id).run ops).fault code).reset).state = AssetState.IDLE
    ∧ ((((BaseAsset.init id).run ops).fault code).reset).fault_code = none := by
  refine ⟨run_faultCodeInv (BaseAsset.init id) ops (by simp [faultCodeInv, BaseAsset.init]),
    ?_, ?_, ?_, ?_⟩ <;>
    simp [BaseAsset.fault, BaseAsset.reset]

/-- C10: calling start() while in FAULT is a silent no-op (state and fault
code unchanged), and no operation other than reset leaves the FAULT state. -/
theorem C10_start_noop_in_fault (a : BaseAsset) (op : AssetOp)
    (hf : a.state = AssetState.FAULT) (hop : op ≠ AssetOp.reset) :
    a.start = a ∧ (a.apply op).state = AssetState.FAULT := by
  constructor
  · simp [BaseAsset.start, hf]
  · cases op with
    | start => simp [BaseAsset.apply, BaseAsset.start, hf]
    | stop => simp [BaseAsset.apply, BaseAsset.stop, hf]
    | fault code => simp [BaseAsset.apply, BaseAsset.fault]
    | reset => exact absurd rfl hop

/-- C10 witness: a concrete faulted battery asset, with the stop operation as
the non-reset operation. -/
theorem C10_start_noop_in_fault_witness :
    ({ asset_id := "battery-01", state := AssetState.FAULT,
        fault_code := some "OVERTEMP" } : BaseAsset).start
      = { asset_id := "battery-01", state := AssetState.FAULT, fault_code := some "OVERTEMP" }
    ∧ (({ asset_id := "battery-01", state := AssetState.FAULT,
          fault_code := some "OVERTEMP" } : BaseAsset).apply AssetOp.stop).state
      = AssetState.FAULT :=
  C10_start_noop_in_fault
    { asset_id := "battery-01", state := AssetState.FAULT, fault_code := some "OVERTEMP" }
    AssetOp.stop rfl (by decide)

/-- C6: a raw telemetry dict accepted by `AssetRegistry.update` (truthy
asset id) is stored with the type-normalized power sign: a solar inverter's
`power_output_kw` unchanged, a battery's or boiler's `power_kw` negated. -/
theorem C6_power_sign_normalized (reg : AssetRegistry) (data : RawTelemetry)
    (aid now : String) (hid : data.asset_id = some aid) (hne : aid ≠ "") :
    (reg.update data now).get aid = some (AssetRegistry.mkSnapshot data aid now)
    ∧ (AssetRegistry.mkSnapshot data aid now).power_kw = extract_power_kw data
    ∧ (data.asset_type = some "solar_inverter" →
        extract_power_kw data = data.power_output_kw.getD 0)
    ∧ (data.asset_type = some "battery_storage" →
        extract_power_kw data = -(data.power_kw.getD 0))
    ∧ (data.asset_type = some "industrial_boiler" →
        extract_power_kw data = -(data.power_kw.getD 0)) := by
  refine ⟨?_, rfl, ?_, ?_, ?_⟩
  · simp [AssetRegistry.update, hid, hne, AssetRegistry.get, assocLookup_upsert_self]
  · intro h
    simp [extract_power_kw, h]
  · intro h
    simp [extract_power_kw, h]
  · intro h
    simp [extract_power_kw, h]

/-- C6 witness: the battery payload of the registry unit tests is stored with
its `power_kw` of 30 negated to −30. -/
theorem C6_power_sign_normalized_witness :
    (AssetRegistry.update { assets := [] } batteryRaw "2024-01-01T12:00:01Z").get "battery-01"
      = some (AssetRegistry.mkSnapshot batteryRaw "battery-01" "2024-01-01T12:00:01Z")
    ∧ extract_power_kw batteryRaw = -(30 : ℚ) := by
  have h := C6_power_sign_normalized { assets := [] } batteryRaw "battery-01"
    "2024-01-01T12:00:01Z" rfl (by simp)
  refine ⟨h.1, ?_⟩
  have hb := h.2.2.2.1 rfl
  simpa [batteryRaw] using hb

/-- C7: applying `update` twice with the same raw dict yields the same
registry state (hence the same stored snapshot and the same count) as
applying it once; wall-clock readings of the two calls are explicit. -/
theorem C7_update_idempotent (reg : AssetRegistry) (data : RawTelemetry)
    (now₁ now₂ : String) :
    (reg.update data now₁).update data now₂ = reg.update data now₂
    ∧ ((reg.update data now₁).update data now₂).count = (reg.update data now₂).count := by
  have hmain : (reg.update data now₁).update data now₂ = reg.update data now₂ := by
    cases hida : data.asset_id with
    | none => simp [AssetRegistry.update, hida]
    | some aid =>
      by_cases hne : aid = ""
      · simp [AssetRegistry.update, hida, hne]
      · simp [AssetRegistry.update, hida, hne, upsert_upsert_self]
  exact ⟨hmain, by rw [hmain]⟩

/-- C4 counterexample: a single solar snapshot generating 1/1000 kW.  The sum
of strictly positive normalized powers is 1/1000, but `compute` reports
`total_generation_kw = 0` because the reported sums are rounded to two
decimal places — so the returned value is not equal to the sum. -/
theorem C4_generation_not_exact_sum_counterexample :
    gridGeneration (AssetRegistry.get_all { assets := [("solar-02", snapTiny)] }) = 1 / 1000
    ∧ (Aggregator.compute "controller" 10 { assets := [("solar-02", snapTiny)] }).total_generation_kw = 0
    ∧ ((1 : ℚ) / 1000 ≠ 0) := by
  refine ⟨?_, ?_, by norm_num⟩
  · norm_num [gridGeneration, AssetRegistry.get_all, snapTiny, List.filter]
  · norm_num [Aggregator.compute, gridGeneration, gridConsumption, AssetRegistry.get_all,
      snapTiny, round2, pyRound, List.filter]

/-- C4 amended: `compute` returns the sum of strictly positive normalized
powers rounded to two decimals as `total_generation_kw`, the sum of absolute
values of negative entries rounded to two decimals as `total_consumption_kw`,
the rounded exact difference as `grid_balance_kw`, and the number of
snapshots as `asset_count`; for entries {+100, −30, −40} this gives
generation 100, consumption 70, balance 30, and for an empty registry all
three sums are 0. -/
theorem C4_compute_sums_rounded (device_id : String) (θ : ℚ) (registry : AssetRegistry) :
    (Aggregator.compute device_id θ registry).total_generation_kw
      = round2 ((registry.get_all.map (fun s => if 0 < s.power_kw then s.power_kw else 0)).sum)
    ∧ (Aggregator.compute device_id θ registry).total_consumption_kw
      = round2 ((registry.get_all.map (fun s => if s.power_kw < 0 then -s.power_kw else 0)).sum)
    ∧ (Aggregator.compute device_id θ registry).grid_balance_kw
      = round2 (((registry.get_all.map (fun s => if 0 < s.power_kw then s.power_kw else 0)).sum)
          - ((registry.get_all.map (fun s => if s.power_kw < 0 then -s.power_kw else 0)).sum))
    ∧ (Aggregator.compute device_id θ registry).asset_count = registry.count
    ∧ (Aggregator.compute "controller" 10 exampleRegistry).total_generation_kw = 100
    ∧ (Aggregator.compute "controller" 10 exampleRegistry).total_consumption_kw = 70
    ∧ (Aggregator.compute "controller" 10 exampleRegistry).grid_balance_kw = 30
    ∧ (Aggregator.compute device_id θ { assets := [] }).total_generation_kw = 0
    ∧ (Aggregator.compute device_id θ { assets := [] }).total_consumption_kw = 0
    ∧ (Aggregator.compute device_id θ { assets := [] }).grid_balance_kw = 0 := by
  refine ⟨?_, ?_, ?_, ?_, ?_, ?_, ?_, ?_, ?_, ?_⟩
  · simp [Aggregator.compute, gridGeneration_eq_ite_sum]
  · simp [Aggregator.compute, gridConsumption_eq_ite_sum]
  · simp [Aggregator.compute, gridGeneration_eq_ite_sum, gridConsumption_eq_ite_sum]
  · simp [Aggregator.compute, AssetRegistry.get_all, AssetRegistry.count]
  · norm_num [Aggregator.compute, gridGeneration, gridConsumption, AssetRegistry.get_all,
      exampleRegistry, snapGen100, snapCons30, snapCons40, round2, pyRound, List.filter]
  · norm_num [Aggregator.compute, gridGeneration, gridConsumption, AssetRegistry.get_all,
      exampleRegistry, snapGen100, snapCons30, snapCons40, round2, pyRound, List.filter]
  · norm_num [Aggregator.compute, gridGeneration, gridConsumption, AssetRegistry.get_all,
      exampleRegistry, snapGen100, snapCons30, snapCons40, round2, pyRound, List.filter]
  · norm_num [Aggregator.compute, gridGeneration, gridConsumption, AssetRegistry.get_all,
      round2, pyRound, List.filter]
  · norm_num [Aggregator.compute, gridGeneration, gridConsumption, AssetRegistry.get_all,
      round2, pyRound, List.filter]
  · norm_num [Aggregator.compute, gridGeneration, gridConsumption, AssetRegistry.get_all,
      round2, pyRound, List.filter]

/-- C5 counterexample: with a negative threshold (−1) an empty registry has
grid balance 0 yet `compute` emits both a GRID_SURPLUS and a GRID_DEFICIT
alert, refuting the claim that an empty registry yields no alerts for every
`surplus_threshold_kw`. -/
theorem C5_empty_registry_negative_threshold_counterexample :
    (Aggregator.compute "controller" (-1) { assets := [] }).grid_balance_kw = 0
    ∧ (Aggregator.compute "controller" (-1) { assets := [] }).alerts =
      [{ severity := "warning", code := "GRID_SURPLUS", asset_id := none },
       { severity := "warning", code := "GRID_DEFICIT", asset_id := none }] := by
  constructor
  · norm_num [Aggregator.compute, gridGeneration, gridConsumption, AssetRegistry.get_all,
      round2, pyRound, List.filter]
  · norm_num [Aggregator.compute, Aggregator.check_alerts, gridGeneration, gridConsumption,
      AssetRegistry.get_all, List.filter]

/-- C5 amended: the balance-alert comparisons are strict — the alerts of
`compute` contain exactly one GRID_SURPLUS warning when the exact balance
strictly exceeds the threshold and none otherwise (in particular none when
they are equal), exactly one GRID_DEFICIT warning when the balance is
strictly below the negated threshold and none otherwise; an empty registry
yields balance 0 and, provided the threshold is nonnegative, no alerts. -/
theorem C5_strict_threshold_alerts (device_id : String) (θ : ℚ) (registry : AssetRegistry) :
    ((Aggregator.compute device_id θ registry).alerts.countP isSurplusAlert
      = if θ < gridGeneration registry.get_all - gridConsumption registry.get_all
        then 1 else 0)
    ∧ ((Aggregator.compute device_id θ registry).alerts.countP isDeficitAlert
      = if gridGeneration registry.get_all - gridConsumption registry.get_all < -θ
        then 1 else 0)
    ∧ (0 ≤ θ → (Aggregator.compute device_id θ { assets := [] }).grid_balance_kw = 0
        ∧ (Aggregator.compute device_id θ { assets := [] }).alerts = []) := by
  refine ⟨?_, ?_, ?_⟩
  · simpa [Aggregator.compute] using
      check_alerts_countP_surplus θ
        (gridGeneration registry.get_all - gridConsumption registry.get_all) registry.get_all
  · simpa [Aggregator.compute] using
      check_alerts_countP_deficit θ
        (gridGeneration registry.get_all - gridConsumption registry.get_all) registry.get_all
  · intro hθ
    have hng : ¬ (θ < (0 : ℚ)) := not_lt.mpr hθ
    have hnd : ¬ ((0 : ℚ) < -θ) := by
      rw [neg_pos]
      exact hng
    constructor
    · norm_num [Aggregator.compute, gridGeneration, gridConsumption, AssetRegistry.get_all,
        round2, pyRound, List.filter]
    · simp [Aggregator.compute, Aggregator.check_alerts, gridGeneration, gridConsumption,
        AssetRegistry.get_all, List.filter, hng, hnd]

/-- C5 witness: at threshold 30 the example balance 30 produces no
GRID_SURPLUS alert, at threshold 10 it produces exactly one, and an empty
registry at threshold 10 produces no alerts. -/
theorem C5_strict_threshold_alerts_witness :
    ((Aggregator.compute "controller" 30 exampleRegistry).alerts.countP isSurplusAlert = 0)
    ∧ ((Aggregator.compute "controller" 10 exampleRegistry).alerts.countP isSurplusAlert = 1)
    ∧ ((Aggregator.compute "controller" 10 { assets := [] }).alerts = []) := by
  have h30 := (C5_strict_threshold_alerts "controller" 30 exampleRegistry).1
  have h10 := (C5_strict_threshold_alerts "controller" 10 exampleRegistry).1
  have hempty := ((C5_strict_threshold_alerts "controller" 10 { assets := [] }).2.2
    (by norm_num)).2
  have hbal : gridGeneration exampleRegistry.get_all
      - gridConsumption exampleRegistry.get_all = 30 := by
    norm_num [gridGeneration, gridConsumption, AssetRegistry.get_all, exampleRegistry,
      snapGen100, snapCons30, snapCons40, List.filter]
  rw [hbal] at h30 h10
  refine ⟨?_, ?_, hempty⟩
  · rw [h30]
    norm_num
  · rw [h10]
    norm_num

/-- C1: if the transport fails the first N−1 attempts and succeeds on attempt
N with N ≤ max_retries+1, `send` returns the success payload after exactly N
invocations; if every attempt fails, `send` fails with the CommandFailed
error after exactly max_retries+1 invocations, wrapping the last underlying
failure and reporting module, method and total attempt count. -/
theorem C1_send_retry_semantics {ε α : Type} (invoke : Nat → Except ε α)
    (module_id method_name : String) (max_retries N : Nat) (p : α) (e : ε) :
    (1 ≤ N → N ≤ max_retries + 1 →
      (∀ i, 1 ≤ i → i < N → invokeFailed (invoke i) = true) →
      invoke N = Except.ok p →
      CommandDispatcher.send invoke module_id method_name max_retries = (Except.ok p, N))
    ∧ ((∀ i, invokeFailed (invoke i) = true) →
      invoke (max_retries + 1) = Except.error e →
      CommandDispatcher.send invoke module_id method_name max_retries
        = (Except.error
            { module_id := module_id, method_name := method_name,
              attempts := max_retries + 1, last := e }, max_retries + 1)) := by
  constructor
  · intro h₁ h₂ hfail hsucc
    have hsl := sendLoop_ok invoke p (N - 1) 1 max_retries (by omega)
      (fun i hi₁ hi₂ => hfail i hi₁ (by omega))
      (by rw [show 1 + (N - 1) = N by omega]; exact hsucc)
    rw [show N - 1 + 1 = N by omega] at hsl
    simp [CommandDispatcher.send, hsl]
  · intro hfail hlast
    obtain ⟨e₁, he₁, hsl⟩ := sendLoop_fail invoke hfail max_retries 1
    rw [show 1 + max_retries = max_retries + 1 by omega, hlast] at he₁
    injection he₁ with he₁
    subst he₁
    simp [CommandDispatcher.send, hsl]

/-- C1 witness: a transport failing on attempt 1 and succeeding on attempt 2
with max_retries = 2 yields the payload after 2 invocations; a transport that
always fails with max_retries = 1 yields the CommandFailed error after
2 invocations. -/
theorem C1_send_retry_semantics_witness :
    CommandDispatcher.send (fun i => if i = 2 then Except.ok 42 else Except.error "boom")
      "battery-module" "start_charging" 2 = (Except.ok 42, 2)
    ∧ CommandDispatcher.send (fun _ => (Except.error "down" : Except String Nat))
      "battery-module" "start" 1
      = (Except.error
          { module_id := "battery-module", method_name := "start",
            attempts := 2, last := "down" }, 2) := by
  constructor
  · exact (C1_send_retry_semantics
      (fun i => if i = 2 then Except.ok 42 else Except.error "boom")
      "battery-module" "start_charging" 2 2 42 "boom").1
      (by omega) (by omega)
      (by
        intro i h₁ h₂
        have hi : i = 1 := by omega
        subst hi
        rfl)
      rfl
  · exact (C1_send_retry_semantics (fun _ => (Except.error "down" : Except String Nat))
      "battery-module" "start" 1 0 0 "down").2 (fun i => rfl) rfl

/-- C2: a call whose correlation id receives no response among the events
delivered before the deadline fails with the Timeout outcome, its pending
entry is removed, and a response carrying that correlation id delivered after
the timeout changes nothing (no error is raised, nothing is resolved). -/
theorem C2_call_timeout {α : Type} (rid tmod meth : String)
    (events : List (String × RespMessage α)) (st : ClientState α) (late : RespMessage α)
    (hfresh : rid ∉ st.pendingIds)
    (hmiss : ∀ e ∈ events, e.1 ≠ rid) :
    (invoke_method rid tmod meth events st).1 = CallOutcome.timedOut tmod meth
    ∧ rid ∉ (invoke_method rid tmod meth events st).2.pendingIds
    ∧ dispatchResponse rid late (invoke_method rid tmod meth events st).2
        = (invoke_method rid tmod meth events st).2 := by
  have hfut : futureOf rid (registerCall rid st) = some FutureSt.pending := by
    simp [registerCall, futureOf, assocLookup]
  have hocc : occCount rid (registerCall rid st).pendingIds = 1 := by
    simp [registerCall, occCount, occCount_eq_zero_of_not_mem rid st.pendingIds hfresh]
  obtain ⟨h₁, h₂⟩ := awaitCall_timeout rid tmod meth events (registerCall rid st)
    hmiss hfut hocc
  exact ⟨h₁, h₂, dispatchResponse_not_pending rid late _ h₂⟩

/-- C2 witness: a concrete call that only ever sees a response for a
different correlation id times out, its entry is gone, and a late matching
response is a no-op. -/
theorem C2_call_timeout_witness :
    (invoke_method "start-1.000000" "battery-module" "start"
        [("other-1", ({ status := 200, payload := 7 } : RespMessage Nat))]
        { pendingIds := [], futures := [] }).1
      = CallOutcome.timedOut "battery-module" "start"
    ∧ "start-1.000000" ∉ (invoke_method "start-1.000000" "battery-module" "start"
        [("other-1", ({ status := 200, payload := 7 } : RespMessage Nat))]
        { pendingIds := [], futures := [] }).2.pendingIds
    ∧ dispatchResponse "start-1.000000" ({ status := 200, payload := 9 } : RespMessage Nat)
        (invoke_method "start-1.000000" "battery-module" "start"
          [("other-1", ({ status := 200, payload := 7 } : RespMessage Nat))]
          { pendingIds := [], futures := [] }).2
      = (invoke_method "start-1.000000" "battery-module" "start"
          [("other-1", ({ status := 200, payload := 7 } : RespMessage Nat))]
          { pendingIds := [], futures := [] }).2 :=
  C2_call_timeout "start-1.000000" "battery-module" "start"
    [("other-1", { status := 200, payload := 7 })]
    { pendingIds := [], futures := [] } { status := 200, payload := 9 }
    (by simp) (by simp)

/-- C3: after issuing a call, a response with a non-matching correlation id
leaves it pending and its future unresolved; a response with the matching id
resolves the future with the response payload and removes the pending entry,
and a second delivery of the same correlation id changes nothing. -/
theorem C3_correlation_resolution {α : Type} (rid ridOther : String)
    (msg msgOther msgAgain : RespMessage α) (st : ClientState α)
    (hne : ridOther ≠ rid) (hfresh : rid ∉ st.pendingIds) :
    rid ∈ (dispatchResponse ridOther msgOther (registerCall rid st)).pendingIds
    ∧ futureOf rid (dispatchResponse ridOther msgOther (registerCall rid st))
        = some FutureSt.pending
    ∧ futureOf rid (dispatchResponse rid msg (registerCall rid st))
        = some (FutureSt.resolved msg.payload)
    ∧ rid ∉ (dispatchResponse rid msg (registerCall rid st)).pendingIds
    ∧ dispatchResponse rid msgAgain (dispatchResponse rid msg (registerCall rid st))
        = dispatchResponse rid msg (registerCall rid st) := by
  have hfut0 : futureOf rid (registerCall rid st) = some FutureSt.pending := by
    simp [registerCall, futureOf, assocLookup]
  have hocc0 : occCount rid (registerCall rid st).pendingIds = 1 := by
    simp [registerCall, occCount, occCount_eq_zero_of_not_mem rid st.pendingIds hfresh]
  obtain ⟨hfutp, hoccp⟩ :=
    dispatchResponse_preserves rid ridOther msgOther (registerCall rid st) hne
  obtain ⟨hres, hids⟩ := dispatchResponse_register_resolves rid msg st
  have hnot : rid ∉ (dispatchResponse rid msg (registerCall rid st)).pendingIds := by
    rw [hids]
    exact hfresh
  refine ⟨?_, ?_, hres, hnot, dispatchResponse_not_pending rid msgAgain _ hnot⟩
  · exact mem_of_occCount_pos rid _ (by rw [hoccp, hocc0]; omega)
  · rw [hfutp]
    exact hfut0

/-- C3 witness: concrete correlation ids — the non-matching response leaves
the call pending, the matching one resolves it with payload 5 exactly once. -/
theorem C3_correlation_resolution_witness :
    "start-1.000000" ∈ (dispatchResponse "other-1" ({ status := 200, payload := 3 } : RespMessage Nat)
        (registerCall "start-1.000000" { pendingIds := [], futures := [] })).pendingIds
    ∧ futureOf "start-1.000000" (dispatchResponse "other-1"
        ({ status := 200, payload := 3 } : RespMessage Nat)
        (registerCall "start-1.000000" { pendingIds := [], futures := [] }))
      = some FutureSt.pending
    ∧ futureOf "start-1.000000" (dispatchResponse "start-1.000000"
        ({ status := 200, payload := 5 } : RespMessage Nat)
        (registerCall "start-1.000000" { pendingIds := [], futures := [] }))
      = some (FutureSt.resolved 5)
    ∧ "start-1.000000" ∉ (dispatchResponse "start-1.000000"
        ({ status := 200, payload := 5 } : RespMessage Nat)
        (registerCall "start-1.000000" { pendingIds := [], futures := [] })).pendingIds
    ∧ dispatchResponse "start-1.000000" ({ status := 200, payload := 8 } : RespMessage Nat)
        (dispatchResponse "start-1.000000" ({ status := 200, payload := 5 } : RespMessage Nat)
          (registerCall "start-1.000000" { pendingIds := [], futures := [] }))
      = dispatchResponse "start-1.000000" ({ status := 200, payload := 5 } : RespMessage Nat)
        (registerCall "start-1.000000" { pendingIds := [], futures := [] }) :=
  C3_correlation_resolution "start-1.000000" "other-1"
    { status := 200, payload := 5 } { status := 200, payload := 3 }
    { status := 200, payload := 8 } { pendingIds := [], futures := [] }
    (by simp) (by simp)

/-- C9: a delivered method response resolves the pending call with the
message's payload field only — for every status value, including error
statuses, the future is resolved with the payload as a success — and the
dispatcher returns a first-attempt success unchanged after exactly one
invocation, with no retry. -/
theorem C9_status_discarded {α : Type} (status : Int) (p : α) (rid : String)
    (module_id method_name : String) (st : ClientState α) (max_retries : Nat) :
    futureOf rid (dispatchResponse rid { status := status, payload := p }
        (registerCall rid st))
      = some (FutureSt.resolved p)
    ∧ CommandDispatcher.send (fun _ => (Except.ok p : Except Unit α))
        module_id method_name max_retries = (Except.ok p, 1) := by
  constructor
  · exact (dispatchResponse_register_resolves rid { status := status, payload := p } st).1
  · cases max_retries <;> simp [CommandDispatcher.send, sendLoop]

/-- C9 witness: a 500-status response still resolves the call with its
payload, and the dispatcher passes that payload through as a success with a
single invocation. -/
theorem C9_status_discarded_witness :
    futureOf "start-1.000000" (dispatchResponse "start-1.000000"
        ({ status := 500, payload := 11 } : RespMessage Nat)
        (registerCall "start-1.000000" { pendingIds := [], futures := [] }))
      = some (FutureSt.resolved 11)
    ∧ CommandDispatcher.send (fun _ => (Except.ok 11 : Except Unit Nat))
        "battery-module" "start" 2 = (Except.ok 11, 1) :=
  C9_status_discarded 500 11 "start-1.000000" "battery-module" "start"
    { pendingIds := [], futures := [] } 2
